import Mathlib

/-!
Verification development for the power-profiles-daemon profile arbitration
engine.  The definitions below are a shallow embedding of the C sources:
`src/ppd-profile.c`, `src/ppd-driver.c` and `src/power-profiles-daemon.c`.
Profiles are the C bitmask values; drivers and actions are records whose
`activateResult` field abstracts the back-end's `activate_profile` virtual
method (`none` = success, `some msg` = failure with that error message).
Stateful daemon code is embedded as explicit state passing on `PpdApp`,
together with an event trace recording the externally observable calls
(driver activations, `ProfileReleased` signals, `PropertiesChanged`
emissions, method replies, state-file saves).
-/

/-! ## Profiles (ppd-profile.h / ppd-profile.c) -/

def PPD_PROFILE_UNSET : Nat := 0

def PPD_PROFILE_POWER_SAVER : Nat := 1

def PPD_PROFILE_BALANCED : Nat := 2

def PPD_PROFILE_PERFORMANCE : Nat := 4

def PPD_PROFILE_ALL : Nat :=
  PPD_PROFILE_POWER_SAVER ||| PPD_PROFILE_BALANCED ||| PPD_PROFILE_PERFORMANCE

/-- `ppd_profile_to_str`: `g_flags_get_first_value` scans the registered flag
values `[(1, "power-saver"), (2, "balanced"), (4, "performance")]` in
declaration order and returns the first whose bits are contained in the
argument; there is no registered zero value, so `0` yields `NULL` and the
function returns `""`. -/
def ppd_profile_to_str (profile : Nat) : String :=
  if profile = 0 then ""
  else if PPD_PROFILE_POWER_SAVER &&& profile = PPD_PROFILE_POWER_SAVER then "power-saver"
  else if PPD_PROFILE_BALANCED &&& profile = PPD_PROFILE_BALANCED then "balanced"
  else if PPD_PROFILE_PERFORMANCE &&& profile = PPD_PROFILE_PERFORMANCE then "performance"
  else ""

/-- `ppd_profile_from_str`: `g_flags_get_value_by_nick` scans the registered
flag values comparing the nick strings; an unknown nick yields `NULL` and the
function returns `PPD_PROFILE_UNSET`. -/
def ppd_profile_from_str (str : String) : Nat :=
  if str = "power-saver" then PPD_PROFILE_POWER_SAVER
  else if str = "balanced" then PPD_PROFILE_BALANCED
  else if str = "performance" then PPD_PROFILE_PERFORMANCE
  else PPD_PROFILE_UNSET

/-! ## Activation reasons (ppd-driver.h) -/

inductive Reason where
  | internal
  | reset
  | user
  | resume
  | programHold
deriving DecidableEq

/-! ## Drivers and actions -/

/-- A bound driver: `driver-name` and `profiles` construct-only properties of
`PpdDriver`, the `performance-degraded` property (held as `NULL` or a
non-empty string by `ppd_driver_set_property`), and the behaviour of the
driver's `activate_profile` virtual method (`none` = `TRUE`,
`some msg` = `FALSE` with `msg` in the `GError`). -/
structure Driver where
  driverName : String
  profiles : Nat
  performanceDegraded : Option String
  activateResult : Nat → Reason → Option String

/-- `ppd_driver_set_property` for `performance-degraded`: a `NULL` or empty
string clears the stored reason, otherwise the string is copied. -/
def set_performance_degraded (degraded : Option String) : Option String :=
  match degraded with
  | none => none
  | some s => if s = "" then none else some s

/-- `ppd_driver_get_performance_degraded`; returns `NULL` when the driver
pointer is `NULL` (the `g_return_val_if_fail` guard). -/
def ppd_driver_get_performance_degraded (driver : Option Driver) : Option String :=
  driver.bind (fun d => d.performanceDegraded)

/-- A bound action (`PpdAction`): its name and the behaviour of its
`activate_profile` virtual method. -/
structure ActionB where
  actionName : String
  activateResult : Nat → Option String

/-- An active profile hold (`ProfileHold` struct). -/
structure ProfileHold where
  profile : Nat
  reason : String
  application_id : String
  requester : String
  requester_iface : String
deriving DecidableEq

/-- The `[State]` section of the persisted key file: keys `CpuDriver`,
`PlatformDriver`, `Profile` (`none` = key absent). -/
structure Config where
  cpuDriver : Option String
  platformDriver : Option String
  profile : Option String
deriving DecidableEq

/-- The daemon state (`PpdApp` struct, fields used by the arbitration
engine).  The hold registry `GHashTable` keyed by cookie is embedded as an
association list in insertion order (hash-table keys are unique; theorems
that need this carry a `Nodup` hypothesis). -/
structure PpdApp where
  activeProfile : Nat
  selectedProfile : Nat
  cpuDriver : Option Driver
  platformDriver : Option Driver
  actions : List ActionB
  profileHolds : List (Nat × ProfileHold)
  config : Config

/-! ## Observable events -/

inductive Slot where
  | cpu
  | platform
deriving DecidableEq

/-- Externally observable steps of the daemon, in emission order. -/
inductive Event where
  /-- the `g_info` line at the top of `activate_target_profile` -/
  | infoSetProfile (target : Nat) (reason : Reason)
  /-- a call into a driver's `activate_profile` and whether it succeeded -/
  | driverActivate (slot : Slot) (profile : Nat) (reason : Reason) (ok : Bool)
  /-- a `g_warning` log line -/
  | warning (msg : String)
  /-- a call into an action's `activate_profile` and whether it succeeded -/
  | actionActivate (name : String) (profile : Nat) (ok : Bool)
  /-- `save_configuration` writing the state file -/
  | saveConfiguration
  /-- the `ProfileReleased` signal sent by `release_hold_notify` -/
  | profileReleased (requester : String) (iface : String) (cookie : Nat)
  /-- `g_bus_unwatch_name` on a hold's cookie -/
  | busUnwatch (cookie : Nat)
  /-- one `PropertiesChanged` emission of `send_dbus_event_iface` -/
  | propertiesChanged (iface : String) (mask : Nat)
  /-- the D-Bus method reply (or property-set reply) to the caller -/
  | methodReply (ok : Bool)
deriving DecidableEq

def Event.isInfoSetProfile : Event → Bool
  | .infoSetProfile _ _ => true
  | _ => false

def Event.isProfileReleased : Event → Bool
  | .profileReleased _ _ _ => true
  | _ => false

def Event.isPropertiesChanged : Event → Bool
  | .propertiesChanged _ _ => true
  | _ => false

def Event.isMethodReply : Event → Bool
  | .methodReply _ => true
  | _ => false

/-! ## Property masks and change notification -/

def PROP_ACTIVE_PROFILE : Nat := 1

def PROP_INHIBITED : Nat := 2

def PROP_PROFILES : Nat := 4

def PROP_ACTIONS : Nat := 8

def PROP_DEGRADED : Nat := 16

def PROP_ACTIVE_PROFILE_HOLDS : Nat := 32

def PROP_VERSION : Nat := 64

def POWER_PROFILES_IFACE_NAME : String := "org.freedesktop.UPower.PowerProfiles"

def POWER_PROFILES_LEGACY_IFACE_NAME : String := "net.hadess.PowerProfiles"

/-- `send_dbus_event`: one `PropertiesChanged` per interface (current and
legacy); `send_dbus_event_iface` returns immediately when the mask is 0. -/
def send_dbus_event (mask : Nat) : List Event :=
  if mask = 0 then []
  else [.propertiesChanged POWER_PROFILES_IFACE_NAME mask,
        .propertiesChanged POWER_PROFILES_LEGACY_IFACE_NAME mask]

/-! ## Driver helpers (power-profiles-daemon.c) -/

/-- `driver_profile_support`: `FALSE` for a `NULL` driver, otherwise tests the
profile bit against the driver's `profiles` bitmask. -/
def driver_profile_support (driver : Option Driver) (profile : Nat) : Bool :=
  match driver with
  | none => false
  | some d => d.profiles &&& profile != 0

def get_profile_available (data : PpdApp) (profile : Nat) : Bool :=
  driver_profile_support data.cpuDriver profile ||
  driver_profile_support data.platformDriver profile

/-- `ppd_driver_activate_profile` dispatched on a bound driver. -/
def driver_activate (driver : Option Driver) (profile : Nat) (reason : Reason) :
    Option String :=
  match driver with
  | none => none
  | some d => d.activateResult profile reason

def driver_name (driver : Option Driver) : String :=
  match driver with
  | none => ""
  | some d => d.driverName

/-- `get_performance_degraded`: a driver's degraded reason is consulted only
if that driver supports the performance profile; `NULL` reasons are dropped
and the two remaining reasons are comma-joined. -/
def get_performance_degraded (data : PpdApp) : String :=
  let platform_degraded :=
    if driver_profile_support data.platformDriver PPD_PROFILE_PERFORMANCE then
      ppd_driver_get_performance_degraded data.platformDriver
    else none
  let cpu_degraded :=
    if driver_profile_support data.cpuDriver PPD_PROFILE_PERFORMANCE then
      ppd_driver_get_performance_degraded data.cpuDriver
    else none
  match cpu_degraded, platform_degraded with
  | none, none => ""
  | none, some p => p
  | some c, none => c
  | some c, some p => c ++ "," ++ p

/-! ## Persistence -/

/-- `save_configuration`: record the bound driver names and the active
profile in the key file. -/
def save_configuration (data : PpdApp) : PpdApp :=
  { data with config :=
    { cpuDriver :=
        match data.cpuDriver with
        | some d => some d.driverName
        | none => data.config.cpuDriver
      platformDriver :=
        match data.platformDriver with
        | some d => some d.driverName
        | none => data.config.platformDriver
      profile := some (ppd_profile_to_str data.activeProfile) } }

/-- `apply_configuration`: the persisted `CpuDriver`/`PlatformDriver` names
must match the bound drivers (checked only for bound slots; `g_strcmp0`
equality on possibly-absent strings); then the persisted `Profile` is parsed
and, when it parses, assigned to `active_profile`.  An unparseable value is
removed from the key file. -/
def apply_configuration (data : PpdApp) : PpdApp × Bool :=
  let cpuMismatch : Bool :=
    match data.cpuDriver with
    | some d => data.config.cpuDriver != some d.driverName
    | none => false
  if cpuMismatch then (data, false)
  else
    let platformMismatch : Bool :=
      match data.platformDriver with
      | some d => data.config.platformDriver != some d.driverName
      | none => false
    if platformMismatch then (data, false)
    else
      match data.config.profile with
      | none => (data, false)
      | some profile_str =>
        let profile := ppd_profile_from_str profile_str
        if profile = PPD_PROFILE_UNSET then
          ({ data with config := { data.config with profile := none } }, false)
        else
          ({ data with activeProfile := profile }, true)

/-! ## Transactional activation -/

/-- `actions_activate_profile`: every bound action is called; failures are
logged and ignored. -/
def actions_activate_profile (actions : List ActionB) (profile : Nat) : List Event :=
  actions.map (fun a => .actionActivate a.actionName profile (a.activateResult profile).isNone)

/-- The tail of `activate_target_profile` after both drivers succeeded:
actions, commit of `active_profile`, persistence for reasons
`user`/`internal`. -/
def activate_commit_stage (data : PpdApp) (target : Nat) (reason : Reason)
    (evs : List Event) : PpdApp × List Event × Option String :=
  let evs := evs ++ actions_activate_profile data.actions target
  let data := { data with activeProfile := target }
  if reason = .user ∨ reason = .internal then
    (save_configuration data, evs ++ [.saveConfiguration], none)
  else
    (data, evs, none)

/-- The platform-driver step of `activate_target_profile`: on failure the CPU
driver (when bound) is re-activated with the previous `active_profile` and
reason `internal`; a failing rollback is only logged; the original platform
error is returned. -/
def activate_platform_stage (data : PpdApp) (target : Nat) (reason : Reason)
    (current : Nat) (evs : List Event) : PpdApp × List Event × Option String :=
  if driver_profile_support data.platformDriver target then
    match driver_activate data.platformDriver target reason with
    | some err =>
      let rollback_evs : List Event :=
        if data.cpuDriver.isSome then
          match driver_activate data.cpuDriver current .internal with
          | some rerr =>
            [.driverActivate .cpu current .internal false,
             .warning ("Failed to revert CPU driver " ++ driver_name data.cpuDriver
                       ++ ": " ++ rerr)]
          | none => [.driverActivate .cpu current .internal true]
        else []
      (data, evs ++ [.driverActivate .platform target reason false] ++ rollback_evs,
       some ("Failed to activate platform driver " ++ driver_name data.platformDriver
             ++ ": " ++ err))
    | none =>
      activate_commit_stage data target reason
        (evs ++ [.driverActivate .platform target reason true])
  else
    activate_commit_stage data target reason evs

/-- `activate_target_profile`: CPU driver first (abort on failure), then
platform driver (rollback of the CPU driver on failure), then actions, then
commit and persistence. -/
def activate_target_profile (data : PpdApp) (target : Nat) (reason : Reason) :
    PpdApp × List Event × Option String :=
  let current := data.activeProfile
  let evs : List Event := [.infoSetProfile target reason]
  if driver_profile_support data.cpuDriver target then
    match driver_activate data.cpuDriver target reason with
    | some err =>
      (data, evs ++ [.driverActivate .cpu target reason false],
       some ("Failed to activate CPU driver " ++ driver_name data.cpuDriver ++ ": " ++ err))
    | none =>
      activate_platform_stage data target reason current
        (evs ++ [.driverActivate .cpu target reason true])
  else
    activate_platform_stage data target reason current evs

/-! ## Hold registry -/

/-- `release_hold_notify`: the `ProfileReleased` signal to the original
requester on the interface the hold was created through. -/
def release_hold_notify (hold : ProfileHold) (cookie : Nat) : Event :=
  .profileReleased hold.requester hold.requester_iface cookie

/-- `release_all_profile_holds`: notify and unwatch every hold, then clear
the registry. -/
def release_all_profile_holds (data : PpdApp) : PpdApp × List Event :=
  ({ data with profileHolds := [] },
   data.profileHolds.flatMap (fun kv => [release_hold_notify kv.2 kv.1, .busUnwatch kv.1]))

/-- `effective_hold_profile`'s iteration: break to `power-saver` as soon as a
power-saver hold is seen, otherwise remember the profile of the hold at
hand. -/
def effective_hold_profile_loop (holds : List (Nat × ProfileHold)) (profile : Nat) : Nat :=
  match holds with
  | [] => profile
  | kv :: rest =>
    if kv.2.profile = PPD_PROFILE_POWER_SAVER then PPD_PROFILE_POWER_SAVER
    else effective_hold_profile_loop rest kv.2.profile

def effective_hold_profile (data : PpdApp) : Nat :=
  effective_hold_profile_loop data.profileHolds PPD_PROFILE_UNSET

/-- `release_profile_hold`: no-op on an unknown cookie; otherwise unwatch,
notify, remove, and recompute the target profile as in the C source. -/
def release_profile_hold (data : PpdApp) (cookie : Nat) : PpdApp × List Event :=
  match (data.profileHolds.lookup cookie : Option ProfileHold) with
  | none => (data, [])
  | some hold =>
    let hold_profile := hold.profile
    let evs : List Event := [.busUnwatch cookie, release_hold_notify hold cookie]
    let data := { data with
      profileHolds := data.profileHolds.filter (fun kv => kv.1 != cookie) }
    if data.profileHolds.length = 0 ∧ hold_profile ≠ data.selectedProfile then
      let r := activate_target_profile data data.selectedProfile .programHold
      (r.1, evs ++ r.2.1 ++
        send_dbus_event (PROP_ACTIVE_PROFILE_HOLDS ||| PROP_ACTIVE_PROFILE))
    else if hold_profile = data.activeProfile then
      let next_profile := effective_hold_profile data
      if next_profile ≠ PPD_PROFILE_UNSET ∧ next_profile ≠ data.activeProfile then
        let r := activate_target_profile data next_profile .programHold
        (r.1, evs ++ r.2.1 ++
          send_dbus_event (PROP_ACTIVE_PROFILE_HOLDS ||| PROP_ACTIVE_PROFILE))
      else
        (data, evs ++ send_dbus_event PROP_ACTIVE_PROFILE_HOLDS)
    else
      (data, evs ++ send_dbus_event PROP_ACTIVE_PROFILE_HOLDS)

/-! ## Client entry points -/

/-- `set_active_profile` (the `ActiveProfile` property setter): reject
unknown and unavailable names, short-circuit when the target equals the
active profile, release all holds with notification, activate with reason
`user`, update `selected_profile`, emit the change notification. -/
def set_active_profile (data : PpdApp) (profile : String) :
    PpdApp × List Event × Option String :=
  let target_profile := ppd_profile_from_str profile
  if target_profile = PPD_PROFILE_UNSET then
    (data, [], some ("Invalid profile name " ++ profile))
  else if !get_profile_available data target_profile then
    (data, [], some ("Cannot switch to unavailable profile " ++ profile))
  else if target_profile = data.activeProfile then
    (data, [], none)
  else
    let withHolds := data.profileHolds.length ≠ 0
    let rel := if withHolds then release_all_profile_holds data else (data, [])
    let mask := if withHolds then PROP_ACTIVE_PROFILE ||| PROP_ACTIVE_PROFILE_HOLDS
                else PROP_ACTIVE_PROFILE
    match activate_target_profile rel.1 target_profile .user with
    | (d2, e2, some err) => (d2, rel.2 ++ e2, some err)
    | (d2, e2, none) =>
      ({ d2 with selectedProfile := target_profile },
       rel.2 ++ e2 ++ send_dbus_event mask, none)

/-- The D-Bus dispatch of a property `Set` call: `handle_set_property` runs
`set_active_profile` and GDBus emits the method reply after the handler
returns. -/
def dbus_set_active_profile (data : PpdApp) (profile : String) :
    PpdApp × List Event :=
  let r := set_active_profile data profile
  (r.1, r.2.1 ++ [.methodReply r.2.2.isNone])

/-- `hold_profile` (the `HoldProfile` method, after the polkit gate): reject
non-holdable and unavailable profiles; install the peer watch yielding the
cookie `watch_id`, store the hold, reply with the cookie, then possibly
activate the effective hold profile, then emit the change notification. -/
def hold_profile (data : PpdApp) (profile_name reason application_id : String)
    (sender iface : String) (watch_id : Nat) : PpdApp × List Event :=
  let profile := ppd_profile_from_str profile_name
  if profile ≠ PPD_PROFILE_PERFORMANCE ∧ profile ≠ PPD_PROFILE_POWER_SAVER then
    (data, [.methodReply false])
  else if !get_profile_available data profile then
    (data, [.methodReply false])
  else
    let hold : ProfileHold :=
      { profile := profile, reason := reason, application_id := application_id,
        requester := sender, requester_iface := iface }
    let data := { data with profileHolds := data.profileHolds ++ [(watch_id, hold)] }
    let evs : List Event := [.methodReply true]
    if profile ≠ data.activeProfile then
      let target_profile := effective_hold_profile data
      if target_profile ≠ PPD_PROFILE_UNSET ∧ target_profile ≠ data.activeProfile then
        let r := activate_target_profile data target_profile .programHold
        (r.1, evs ++ r.2.1 ++
          send_dbus_event (PROP_ACTIVE_PROFILE_HOLDS ||| PROP_ACTIVE_PROFILE))
      else
        (data, evs ++ send_dbus_event PROP_ACTIVE_PROFILE_HOLDS)
    else
      (data, evs ++ send_dbus_event PROP_ACTIVE_PROFILE_HOLDS)

/-- `release_profile` (the `ReleaseProfile` method): reject unknown cookies,
otherwise `release_profile_hold` (which emits the change notification) and
then the empty method reply. -/
def release_profile (data : PpdApp) (cookie : Nat) : PpdApp × List Event :=
  if (data.profileHolds.lookup cookie).isNone then
    (data, [.methodReply false])
  else
    let r := release_profile_hold data cookie
    (r.1, r.2 ++ [.methodReply true])

/-! ## Start-up gate -/

/-- `has_required_drivers`: at least one driver slot bound, and
`get_profile_available` on the mask `PPD_PROFILE_BALANCED |
PPD_PROFILE_POWER_SAVER` (a bitwise intersection test). -/
def has_required_drivers (data : PpdApp) : Bool :=
  if data.cpuDriver.isNone ∧ data.platformDriver.isNone then false
  else get_profile_available data (PPD_PROFILE_BALANCED ||| PPD_PROFILE_POWER_SAVER)

/-- `start_profile_drivers` sets `ret = EXIT_FAILURE` and quits the main loop
exactly when `has_required_drivers` fails. -/
def startup_exit_nonzero (data : PpdApp) : Bool :=
  !has_required_drivers data

/-- Union of the bound drivers' supported-profile bitmasks. -/
def union_supported (data : PpdApp) : Nat :=
  (match data.cpuDriver with | some d => d.profiles | none => 0) |||
  (match data.platformDriver with | some d => d.profiles | none => 0)

/-! ## Trace observers (used to state the claims) -/

/-- Every hold of `holds` has exactly one `ProfileReleased` signal for its
cookie (addressed to its requester on its interface) in the trace `l`. -/
def each_hold_released_once (holds : List (Nat × ProfileHold)) (l : List Event) : Bool :=
  holds.all (fun kv =>
    l.count (Event.profileReleased kv.2.requester kv.2.requester_iface kv.1) == 1)

/-- No `ProfileReleased` signal occurs at or after the first activation
(`infoSetProfile`) event: holds are released before the activation
proceeds. -/
def released_before_activation (l : List Event) : Bool :=
  (l.dropWhile (fun e => !e.isInfoSetProfile)).all (fun e => !e.isProfileReleased)

/-- No change notification is emitted after a method reply: the reply comes
after the corresponding `PropertiesChanged` emissions. -/
def no_notification_after_reply (l : List Event) : Bool :=
  (l.dropWhile (fun e => !e.isMethodReply)).all (fun e => !e.isPropertiesChanged)

/-! ## Concrete states used by the witnesses and counterexamples -/

/-- A CPU driver supporting every profile whose activations always
succeed. -/
def cpuAllOk : Driver :=
  { driverName := "cpu_all_ok", profiles := PPD_PROFILE_ALL,
    performanceDegraded := none, activateResult := fun _ _ => none }

/-- A platform driver supporting every profile whose activations always
fail. -/
def platformAllFail : Driver :=
  { driverName := "platform_all_fail", profiles := PPD_PROFILE_ALL,
    performanceDegraded := none, activateResult := fun _ _ => some "boom" }

/-- A CPU driver supporting every profile whose activations always fail. -/
def cpuAllFail : Driver :=
  { driverName := "cpu_all_fail", profiles := PPD_PROFILE_ALL,
    performanceDegraded := none, activateResult := fun _ _ => some "boom" }

/-- A CPU driver supporting only the balanced profile. -/
def cpuBalancedOnly : Driver :=
  { driverName := "cpu_balanced_only", profiles := PPD_PROFILE_BALANCED,
    performanceDegraded := none, activateResult := fun _ _ => none }

def emptyConfig : Config := { cpuDriver := none, platformDriver := none, profile := none }

def holdPerfA : ProfileHold :=
  { profile := PPD_PROFILE_PERFORMANCE, reason := "video", application_id := "vlc",
    requester := ":1.17", requester_iface := POWER_PROFILES_IFACE_NAME }

def holdSaverB : ProfileHold :=
  { profile := PPD_PROFILE_POWER_SAVER, reason := "low-battery", application_id := "shell",
    requester := ":1.42", requester_iface := POWER_PROFILES_LEGACY_IFACE_NAME }

/-- Healthy state: CPU driver bound, all profiles available, no holds. -/
def exAppOk : PpdApp :=
  { activeProfile := PPD_PROFILE_BALANCED, selectedProfile := PPD_PROFILE_BALANCED,
    cpuDriver := some cpuAllOk, platformDriver := none,
    actions := [], profileHolds := [], config := emptyConfig }

/-- State with a failing platform driver. -/
def exAppPlatformFail : PpdApp :=
  { activeProfile := PPD_PROFILE_BALANCED, selectedProfile := PPD_PROFILE_BALANCED,
    cpuDriver := some cpuAllOk, platformDriver := some platformAllFail,
    actions := [], profileHolds := [], config := emptyConfig }

/-- State where a performance hold is in effect: `active_profile` was moved
to performance by the hold while `selected_profile` stayed balanced. -/
def exAppHoldActive : PpdApp :=
  { activeProfile := PPD_PROFILE_PERFORMANCE, selectedProfile := PPD_PROFILE_BALANCED,
    cpuDriver := some cpuAllOk, platformDriver := none,
    actions := [], profileHolds := [(17, holdPerfA)], config := emptyConfig }

/-- State with a hold and a CPU driver whose activations fail. -/
def exAppCpuFail : PpdApp :=
  { activeProfile := PPD_PROFILE_BALANCED, selectedProfile := PPD_PROFILE_BALANCED,
    cpuDriver := some cpuAllFail, platformDriver := none,
    actions := [], profileHolds := [(17, holdPerfA)], config := emptyConfig }

/-- State whose only bound driver supports only the balanced profile. -/
def exAppBalancedOnly : PpdApp :=
  { activeProfile := PPD_PROFILE_BALANCED, selectedProfile := PPD_PROFILE_BALANCED,
    cpuDriver := some cpuBalancedOnly, platformDriver := none,
    actions := [], profileHolds := [], config := emptyConfig }

/-- State at start-up: persisted state recorded against the bound CPU driver
with profile `performance`. -/
def exAppPersisted : PpdApp :=
  { activeProfile := PPD_PROFILE_BALANCED, selectedProfile := PPD_PROFILE_BALANCED,
    cpuDriver := some cpuAllOk, platformDriver := none,
    actions := [], profileHolds := [],
    config := { cpuDriver := some "cpu_all_ok", platformDriver := none,
                profile := some "performance" } }

/-- Start-up state with an unparseable persisted profile. -/
def exAppPersistedBad : PpdApp :=
  { activeProfile := PPD_PROFILE_BALANCED, selectedProfile := PPD_PROFILE_BALANCED,
    cpuDriver := some cpuAllOk, platformDriver := none,
    actions := [], profileHolds := [],
    config := { cpuDriver := some "cpu_all_ok", platformDriver := none,
                profile := some "fast" } }

/-- A driver after its `performance-degraded` property was set (through
`ppd_driver_set_property`) to a new value. -/
def driver_with_degraded (degraded : Option String) (d : Driver) : Driver :=
  { d with performanceDegraded := set_performance_degraded degraded }

/-- The bound CPU driver's `performance-degraded` property being set. -/
def with_cpu_degraded (data : PpdApp) (degraded : Option String) : PpdApp :=
  { data with cpuDriver := Option.map (driver_with_degraded degraded) data.cpuDriver }

/-- The bound platform driver's `performance-degraded` property being set. -/
def with_platform_degraded (data : PpdApp) (degraded : Option String) : PpdApp :=
  { data with platformDriver := Option.map (driver_with_degraded degraded) data.platformDriver }

/-- The hold registry after the entry for `cookie` is removed
(`g_hash_table_remove`). -/
def remaining_holds (data : PpdApp) (cookie : Nat) : List (Nat × ProfileHold) :=
  data.profileHolds.filter (fun kv => kv.1 != cookie)

/-- The effective hold profile recomputed over the registry without
`cookie`'s hold, as `release_profile_hold` does. -/
def next_hold_profile (data : PpdApp) (cookie : Nat) : Nat :=
  effective_hold_profile { data with profileHolds := remaining_holds data cookie }

/-! ## Helper lemmas -/

lemma lor_and_eq_zero_iff (a b m : Nat) :
    (a ||| b) &&& m = 0 ↔ (a &&& m = 0 ∧ b &&& m = 0) := by
  constructor
  · intro h
    constructor <;>
      refine Nat.eq_of_testBit_eq fun i => ?_ <;>
      · have hi := congrArg (fun n => Nat.testBit n i) h
        simp only [Nat.testBit_and, Nat.testBit_or, Nat.zero_testBit,
          Bool.and_eq_false_iff, Bool.or_eq_false_iff] at hi ⊢
        tauto
  · rintro ⟨h1, h2⟩
    refine Nat.eq_of_testBit_eq fun i => ?_
    have hi1 := congrArg (fun n => Nat.testBit n i) h1
    have hi2 := congrArg (fun n => Nat.testBit n i) h2
    simp only [Nat.testBit_and, Nat.testBit_or, Nat.zero_testBit,
      Bool.and_eq_false_iff, Bool.or_eq_false_iff] at hi1 hi2 ⊢
    tauto

/-! ## C9 -/

/-- Claim C9: profile-name serialization round-trips — for each of the three
profiles, `ppd_profile_from_str (ppd_profile_to_str p) = p`;
`ppd_profile_to_str` of `unset` yields the empty string, and
`ppd_profile_from_str` of any string naming no profile yields `unset`. -/
theorem c9_profile_str_roundtrip :
    (∀ p : Nat,
      p = PPD_PROFILE_POWER_SAVER ∨ p = PPD_PROFILE_BALANCED ∨ p = PPD_PROFILE_PERFORMANCE →
      ppd_profile_from_str (ppd_profile_to_str p) = p) ∧
    ppd_profile_to_str PPD_PROFILE_UNSET = "" ∧
    (∀ s : String, s ≠ "power-saver" → s ≠ "balanced" → s ≠ "performance" →
      ppd_profile_from_str s = PPD_PROFILE_UNSET) := by
  refine ⟨?_, rfl, ?_⟩
  · rintro p (rfl | rfl | rfl) <;> decide
  · intro s h1 h2 h3
    simp [ppd_profile_from_str, h1, h2, h3]

/-- Witness for C9 at concrete inputs. -/
theorem c9_witness :
    ppd_profile_from_str (ppd_profile_to_str PPD_PROFILE_PERFORMANCE) = PPD_PROFILE_PERFORMANCE ∧
    ppd_profile_from_str "fast" = PPD_PROFILE_UNSET :=
  ⟨c9_profile_str_roundtrip.1 PPD_PROFILE_PERFORMANCE (Or.inr (Or.inr rfl)),
   c9_profile_str_roundtrip.2.2 "fast" (by decide) (by decide) (by decide)⟩

/-! ## C5 -/

/-- Claim C5: setting `ActiveProfile` to its current value (requested profile
valid, available, and equal to `active_profile`) returns success, emits no
change notification, and leaves the daemon's state unchanged. -/
theorem c5_set_active_profile_idempotent (data : PpdApp) (profile : String)
    (hvalid : ppd_profile_from_str profile ≠ PPD_PROFILE_UNSET)
    (havail : get_profile_available data (ppd_profile_from_str profile) = true)
    (hcur : ppd_profile_from_str profile = data.activeProfile) :
    set_active_profile data profile = (data, [], none) := by
  have h1 : data.activeProfile ≠ PPD_PROFILE_UNSET := hcur ▸ hvalid
  have h2 : get_profile_available data data.activeProfile = true := hcur ▸ havail
  unfold set_active_profile
  simp [hvalid, havail, hcur, h1, h2]

/-- Witness for C5: setting `balanced` while balanced is active. -/
theorem c5_witness : set_active_profile exAppOk "balanced" = (exAppOk, [], none) :=
  c5_set_active_profile_idempotent exAppOk "balanced" (by decide) (by decide) (by decide)

/-! ## C3 -/

/-- Claim C3 counterexample: with a single bound CPU driver supporting only
`balanced`, the union of supported profiles does not cover `power-saver`
(so the claim requires a non-zero exit), yet the start-up gate passes. -/
theorem c3_counterexample :
    union_supported exAppBalancedOnly &&& PPD_PROFILE_POWER_SAVER = 0 ∧
    union_supported exAppBalancedOnly &&& PPD_PROFILE_BALANCED ≠ 0 ∧
    startup_exit_nonzero exAppBalancedOnly = false := by
  refine ⟨by decide, by decide, by decide⟩

/-- Claim C3 (amended): after the probe pass the daemon exits with a
non-zero status iff no CPU driver and no platform driver is bound, or the
union of the bound drivers' supported profiles contains neither `balanced`
nor `power-saver`. -/
theorem c3_required_drivers_gate (data : PpdApp) :
    startup_exit_nonzero data = true ↔
      (data.cpuDriver = none ∧ data.platformDriver = none) ∨
      union_supported data &&& (PPD_PROFILE_BALANCED ||| PPD_PROFILE_POWER_SAVER) = 0 := by
  unfold startup_exit_nonzero has_required_drivers get_profile_available
    driver_profile_support union_supported
  cases hc : data.cpuDriver with
  | none =>
    cases hp : data.platformDriver with
    | none => simp
    | some p =>
      simp only [Option.isNone_none, Option.isNone_some]
      rw [lor_and_eq_zero_iff]
      simp [Nat.zero_and]
  | some c =>
    cases hp : data.platformDriver with
    | none =>
      simp only [Option.isNone_none, Option.isNone_some]
      rw [lor_and_eq_zero_iff]
      simp [Nat.zero_and]
    | some p =>
      simp only [Option.isNone_none, Option.isNone_some]
      rw [lor_and_eq_zero_iff]
      simp

/-- Witness for C3 (amended): a state with no bound drivers exits non-zero. -/
theorem c3_witness :
    startup_exit_nonzero
      { activeProfile := PPD_PROFILE_BALANCED, selectedProfile := PPD_PROFILE_BALANCED,
        cpuDriver := none, platformDriver := none, actions := [], profileHolds := [],
        config := emptyConfig } = true :=
  (c3_required_drivers_gate _).mpr (Or.inl ⟨rfl, rfl⟩)

/-! ## C4 -/

/-- Claim C4 counterexample: with the persisted name checks passing and
`Profile=performance`, `apply_configuration` assigns `active_profile` but
leaves `selected_profile` at balanced — the persisted profile is not
assigned to both variables as the claim states. -/
theorem c4_counterexample :
    (apply_configuration exAppPersisted).1.activeProfile = PPD_PROFILE_PERFORMANCE ∧
    (apply_configuration exAppPersisted).1.selectedProfile ≠ PPD_PROFILE_PERFORMANCE := by
  refine ⟨by decide, by decide⟩

/-- Claim C4 (amended): when the persisted CpuDriver/PlatformDriver name
checks pass and the persisted `Profile` string parses to a supported
profile, that profile is assigned to `active_profile` only, while
`selected_profile` keeps its prior value; an unparseable `Profile` value is
erased from the store and no profile is applied. -/
theorem c4_apply_configuration (data : PpdApp) (s : String)
    (hcpu : ∀ d, data.cpuDriver = some d → data.config.cpuDriver = some d.driverName)
    (hplat : ∀ d, data.platformDriver = some d → data.config.platformDriver = some d.driverName)
    (hs : data.config.profile = some s) :
    (ppd_profile_from_str s ≠ PPD_PROFILE_UNSET →
      get_profile_available data (ppd_profile_from_str s) = true →
      apply_configuration data =
        ({ data with activeProfile := ppd_profile_from_str s }, true) ∧
      (apply_configuration data).1.selectedProfile = data.selectedProfile) ∧
    (ppd_profile_from_str s = PPD_PROFILE_UNSET →
      apply_configuration data =
        ({ data with config := { data.config with profile := none } }, false) ∧
      (apply_configuration data).1.activeProfile = data.activeProfile) := by
  have h1 : (match data.cpuDriver with
      | some d => data.config.cpuDriver != some d.driverName
      | none => false) = false := by
    cases hc : data.cpuDriver with
    | none => rfl
    | some d => simp [hcpu d hc]
  have h2 : (match data.platformDriver with
      | some d => data.config.platformDriver != some d.driverName
      | none => false) = false := by
    cases hp : data.platformDriver with
    | none => rfl
    | some d => simp [hplat d hp]
  constructor
  · intro hparse _
    unfold apply_configuration
    simp only [h1, h2, Bool.false_eq_true, if_false, hs]
    rw [if_neg hparse]
    exact ⟨rfl, rfl⟩
  · intro hparse
    unfold apply_configuration
    simp only [h1, h2, Bool.false_eq_true, if_false, hs]
    rw [if_pos hparse]
    exact ⟨rfl, rfl⟩

/-- Witness for C4 (amended): restoring `performance` against the matching
driver name sets `active_profile` and keeps `selected_profile`; restoring an
unparseable value erases it. -/
theorem c4_witness :
    (apply_configuration exAppPersisted =
      ({ exAppPersisted with activeProfile := PPD_PROFILE_PERFORMANCE }, true) ∧
     (apply_configuration exAppPersisted).1.selectedProfile = exAppPersisted.selectedProfile) ∧
    (apply_configuration exAppPersistedBad =
      ({ exAppPersistedBad with
          config := { exAppPersistedBad.config with profile := none } }, false) ∧
     (apply_configuration exAppPersistedBad).1.activeProfile = exAppPersistedBad.activeProfile) :=
  ⟨(c4_apply_configuration exAppPersisted "performance"
      (fun d hd => by cases hd; rfl) (fun d hd => by cases hd) rfl).1 (by decide) (by decide),
   (c4_apply_configuration exAppPersistedBad "fast"
      (fun d hd => by cases hd; rfl) (fun d hd => by cases hd) rfl).2 (by decide)⟩

/-! ## C6 -/

lemma effective_hold_profile_loop_spec (holds : List (Nat × ProfileHold)) (acc : Nat)
    (hall : ∀ kv ∈ holds,
      kv.2.profile = PPD_PROFILE_PERFORMANCE ∨ kv.2.profile = PPD_PROFILE_POWER_SAVER) :
    effective_hold_profile_loop holds acc =
      if holds.any (fun kv => kv.2.profile == PPD_PROFILE_POWER_SAVER) then
        PPD_PROFILE_POWER_SAVER
      else if holds.isEmpty then acc
      else PPD_PROFILE_PERFORMANCE := by
  induction holds generalizing acc with
  | nil => simp [effective_hold_profile_loop]
  | cons kv rest ih =>
    rcases hall kv (by simp) with hperf | hps
    · have hne : kv.2.profile ≠ PPD_PROFILE_POWER_SAVER := by
        rw [hperf]; decide
      have hbeq : (kv.2.profile == PPD_PROFILE_POWER_SAVER) = false := by
        simpa using hne
      rw [effective_hold_profile_loop, if_neg hne,
        ih kv.2.profile (fun x hx => hall x (by simp [hx]))]
      simp only [List.any_cons, hbeq, Bool.false_or, List.isEmpty_cons,
        Bool.false_eq_true, if_false]
      by_cases hany : rest.any (fun kv => kv.2.profile == PPD_PROFILE_POWER_SAVER) = true
      · rw [if_pos hany, if_pos hany]
      · rw [Bool.not_eq_true] at hany
        rw [hany]
        simp only [Bool.false_eq_true, if_false, hperf]
        split <;> rfl
    · have hbeq : (kv.2.profile == PPD_PROFILE_POWER_SAVER) = true := by
        simpa using hps
      rw [effective_hold_profile_loop, if_pos hps]
      simp [hbeq]

/-- Claim C6: for every hold set whose holds request only `performance` or
`power-saver` (the only holdable profiles): if any hold requests
`power-saver` the effective hold profile is `power-saver`; otherwise, if the
set is non-empty, it is `performance`; if the set is empty it is `unset`. -/
theorem c6_effective_hold_profile (data : PpdApp)
    (hall : ∀ kv ∈ data.profileHolds,
      kv.2.profile = PPD_PROFILE_PERFORMANCE ∨ kv.2.profile = PPD_PROFILE_POWER_SAVER) :
    effective_hold_profile data =
      if data.profileHolds.any (fun kv => kv.2.profile == PPD_PROFILE_POWER_SAVER) then
        PPD_PROFILE_POWER_SAVER
      else if data.profileHolds.isEmpty then PPD_PROFILE_UNSET
      else PPD_PROFILE_PERFORMANCE :=
  effective_hold_profile_loop_spec data.profileHolds PPD_PROFILE_UNSET hall

/-- Witness for C6: a performance hold plus a power-saver hold yields
`power-saver`; a single performance hold yields `performance`; the empty
set yields `unset`. -/
theorem c6_witness :
    effective_hold_profile
      { exAppOk with profileHolds := [(17, holdPerfA), (18, holdSaverB)] } =
        PPD_PROFILE_POWER_SAVER ∧
    effective_hold_profile { exAppOk with profileHolds := [(17, holdPerfA)] } =
        PPD_PROFILE_PERFORMANCE ∧
    effective_hold_profile exAppOk = PPD_PROFILE_UNSET := by
  refine ⟨?_, ?_, ?_⟩
  · rw [c6_effective_hold_profile _ (by decide)]; decide
  · rw [c6_effective_hold_profile _ (by decide)]; decide
  · rw [c6_effective_hold_profile _ (by decide)]; decide

/-! ## C10 -/

lemma support_with_cpu_degraded (data : PpdApp) (s : Option String) (p : Nat) :
    driver_profile_support (with_cpu_degraded data s).cpuDriver p =
      driver_profile_support data.cpuDriver p := by
  cases h : data.cpuDriver <;>
    simp [with_cpu_degraded, h, driver_profile_support, driver_with_degraded]

lemma support_with_platform_degraded (data : PpdApp) (s : Option String) (p : Nat) :
    driver_profile_support (with_platform_degraded data s).platformDriver p =
      driver_profile_support data.platformDriver p := by
  cases h : data.platformDriver <;>
    simp [with_platform_degraded, h, driver_profile_support, driver_with_degraded]

/-- Claim C10: the published `PerformanceDegraded` string only ever includes
a driver's degraded reason when that driver advertises the performance
profile (so the result is invariant under changing a non-performance
driver's reason); if neither bound driver advertises performance the result
is the empty string; and a reason set to the empty string is treated as
absent. -/
theorem c10_performance_degraded (data : PpdApp) :
    (driver_profile_support data.cpuDriver PPD_PROFILE_PERFORMANCE = false →
     driver_profile_support data.platformDriver PPD_PROFILE_PERFORMANCE = false →
     get_performance_degraded data = "") ∧
    (driver_profile_support data.cpuDriver PPD_PROFILE_PERFORMANCE = false →
     ∀ s, get_performance_degraded (with_cpu_degraded data s) =
            get_performance_degraded data) ∧
    (driver_profile_support data.platformDriver PPD_PROFILE_PERFORMANCE = false →
     ∀ s, get_performance_degraded (with_platform_degraded data s) =
            get_performance_degraded data) ∧
    get_performance_degraded (with_cpu_degraded data (some "")) =
      get_performance_degraded (with_cpu_degraded data none) ∧
    get_performance_degraded (with_platform_degraded data (some "")) =
      get_performance_degraded (with_platform_degraded data none) := by
  have hfun : driver_with_degraded (some "") = driver_with_degraded none := by
    funext d
    simp [driver_with_degraded, set_performance_degraded]
  have hcpueq : with_cpu_degraded data (some "") = with_cpu_degraded data none := by
    simp [with_cpu_degraded, hfun]
  have hplateq : with_platform_degraded data (some "") = with_platform_degraded data none := by
    simp [with_platform_degraded, hfun]
  refine ⟨?_, ?_, ?_, by rw [hcpueq], by rw [hplateq]⟩
  · intro hc hp
    simp [get_performance_degraded, hc, hp]
  · intro hc s
    have hc2 := support_with_cpu_degraded data s PPD_PROFILE_PERFORMANCE
    rw [hc] at hc2
    simp only [with_cpu_degraded] at hc2
    simp [get_performance_degraded, hc, hc2, with_cpu_degraded]
  · intro hp s
    have hp2 := support_with_platform_degraded data s PPD_PROFILE_PERFORMANCE
    rw [hp] at hp2
    simp only [with_platform_degraded] at hp2
    simp [get_performance_degraded, hp, hp2, with_platform_degraded]

/-- Witness for C10: with a balanced-only driver, changing its degraded
reason does not change the published string, which stays empty. -/
theorem c10_witness :
    get_performance_degraded exAppBalancedOnly = "" ∧
    get_performance_degraded (with_cpu_degraded exAppBalancedOnly (some "thermal")) =
      get_performance_degraded exAppBalancedOnly :=
  ⟨(c10_performance_degraded exAppBalancedOnly).1 (by decide) (by decide),
   (c10_performance_degraded exAppBalancedOnly).2.1 (by decide) (some "thermal")⟩

/-! ## C1 -/

/-- Claim C1: whenever the platform driver supports the target and its
`activate_profile` fails after the CPU driver had been called for the
target, the CPU driver is re-activated with the previous `active_profile`
and reason `internal`; a failing rollback only adds a warning; the original
platform error is returned; and the state (in particular `active_profile`)
is unchanged. -/
theorem c1_platform_failure_rollback (data : PpdApp) (target : Nat) (reason : Reason)
    (e : String)
    (hcs : driver_profile_support data.cpuDriver target = true)
    (hca : driver_activate data.cpuDriver target reason = none)
    (hps : driver_profile_support data.platformDriver target = true)
    (hpa : driver_activate data.platformDriver target reason = some e) :
    activate_target_profile data target reason =
      (data,
       [.infoSetProfile target reason,
        .driverActivate .cpu target reason true,
        .driverActivate .platform target reason false] ++
       (match driver_activate data.cpuDriver data.activeProfile .internal with
        | none => [Event.driverActivate .cpu data.activeProfile .internal true]
        | some rerr =>
          [Event.driverActivate .cpu data.activeProfile .internal false,
           Event.warning ("Failed to revert CPU driver " ++ driver_name data.cpuDriver
                          ++ ": " ++ rerr)]),
       some ("Failed to activate platform driver " ++ driver_name data.platformDriver
             ++ ": " ++ e)) := by
  have hsome : data.cpuDriver.isSome = true := by
    cases h : data.cpuDriver with
    | none => rw [h] at hcs; simp [driver_profile_support] at hcs
    | some d => rfl
  unfold activate_target_profile activate_platform_stage
  rw [if_pos hcs, hca, if_pos hps, hpa]
  simp only [hsome, if_pos]
  cases hr : driver_activate data.cpuDriver data.activeProfile .internal <;> simp

/-- Witness for C1: activating performance with a failing platform driver
rolls the CPU driver back to balanced and returns the platform error. -/
theorem c1_witness :
    activate_target_profile exAppPlatformFail PPD_PROFILE_PERFORMANCE .user =
      (exAppPlatformFail,
       [.infoSetProfile PPD_PROFILE_PERFORMANCE .user,
        .driverActivate .cpu PPD_PROFILE_PERFORMANCE .user true,
        .driverActivate .platform PPD_PROFILE_PERFORMANCE .user false,
        .driverActivate .cpu PPD_PROFILE_BALANCED .internal true],
       some "Failed to activate platform driver platform_all_fail: boom") := by
  have h := c1_platform_failure_rollback exAppPlatformFail PPD_PROFILE_PERFORMANCE .user "boom"
    (by decide) rfl (by decide) rfl
  simpa using h

/-! ## Helper lemmas on the activation trace and state -/

lemma commit_stage_shape (data : PpdApp) (t : Nat) (r : Reason) (evs : List Event) :
    (activate_commit_stage data t r evs).1.activeProfile = t ∧
    (activate_commit_stage data t r evs).1.selectedProfile = data.selectedProfile ∧
    (activate_commit_stage data t r evs).1.profileHolds = data.profileHolds ∧
    (activate_commit_stage data t r evs).2.2 = none := by
  unfold activate_commit_stage save_configuration
  split <;> simp

lemma platform_stage_shape (data : PpdApp) (t : Nat) (r : Reason) (cur : Nat)
    (evs : List Event) :
    ((activate_platform_stage data t r cur evs).2.2 = none →
      (activate_platform_stage data t r cur evs).1.activeProfile = t) ∧
    (activate_platform_stage data t r cur evs).1.selectedProfile = data.selectedProfile ∧
    (activate_platform_stage data t r cur evs).1.profileHolds = data.profileHolds := by
  unfold activate_platform_stage
  cases hps : driver_profile_support data.platformDriver t with
  | false =>
    simp only [Bool.false_eq_true, if_false]
    have hc := commit_stage_shape data t r evs
    exact ⟨fun _ => hc.1, hc.2.1, hc.2.2.1⟩
  | true =>
    simp only [if_true]
    cases hpa : driver_activate data.platformDriver t r with
    | none =>
      have hc := commit_stage_shape data t r (evs ++ [.driverActivate .platform t r true])
      exact ⟨fun _ => hc.1, hc.2.1, hc.2.2.1⟩
    | some err =>
      refine ⟨fun h => absurd h (by simp), rfl, rfl⟩

lemma activate_state_shape (data : PpdApp) (t : Nat) (r : Reason) :
    ((activate_target_profile data t r).2.2 = none →
      (activate_target_profile data t r).1.activeProfile = t) ∧
    (activate_target_profile data t r).1.selectedProfile = data.selectedProfile ∧
    (activate_target_profile data t r).1.profileHolds = data.profileHolds := by
  unfold activate_target_profile
  cases hcs : driver_profile_support data.cpuDriver t with
  | false =>
    simp only [Bool.false_eq_true, if_false]
    exact platform_stage_shape data t r data.activeProfile _
  | true =>
    simp only [if_true]
    cases hca : driver_activate data.cpuDriver t r with
    | none => exact platform_stage_shape data t r data.activeProfile _
    | some err => refine ⟨fun h => absurd h (by simp), rfl, rfl⟩

/-- The non-`infoSetProfile` events produced inside an activation: driver
and action calls, warnings, and the state-file save. -/
def Event.isPlainActivationStep : Event → Bool
  | .driverActivate _ _ _ _ => true
  | .warning _ => true
  | .actionActivate _ _ _ => true
  | .saveConfiguration => true
  | _ => false

lemma plain_step_observers (e : Event) (h : e.isPlainActivationStep = true) :
    e.isProfileReleased = false ∧ e.isMethodReply = false ∧
    e.isPropertiesChanged = false ∧ e.isInfoSetProfile = false := by
  cases e <;> simp_all [Event.isPlainActivationStep, Event.isProfileReleased,
    Event.isMethodReply, Event.isPropertiesChanged, Event.isInfoSetProfile]

lemma actions_events_plain (actions : List ActionB) (t : Nat) :
    ∀ e ∈ actions_activate_profile actions t, e.isPlainActivationStep = true := by
  intro e he
  simp only [actions_activate_profile, List.mem_map] at he
  obtain ⟨a, _, rfl⟩ := he
  rfl

lemma commit_stage_events (data : PpdApp) (t : Nat) (r : Reason) (evs : List Event) :
    ∃ tail, (activate_commit_stage data t r evs).2.1 = evs ++ tail ∧
      ∀ e ∈ tail, e.isPlainActivationStep = true := by
  unfold activate_commit_stage
  split
  · refine ⟨actions_activate_profile data.actions t ++ [.saveConfiguration], by simp, ?_⟩
    intro e he
    rcases List.mem_append.1 he with h | h
    · exact actions_events_plain data.actions t e h
    · simp only [List.mem_singleton] at h
      subst h; rfl
  · exact ⟨actions_activate_profile data.actions t, rfl,
      actions_events_plain data.actions t⟩

lemma platform_stage_events (data : PpdApp) (t : Nat) (r : Reason) (cur : Nat)
    (evs : List Event) :
    ∃ tail, (activate_platform_stage data t r cur evs).2.1 = evs ++ tail ∧
      ∀ e ∈ tail, e.isPlainActivationStep = true := by
  unfold activate_platform_stage
  cases hps : driver_profile_support data.platformDriver t with
  | false =>
    simp only [Bool.false_eq_true, if_false]
    exact commit_stage_events data t r evs
  | true =>
    simp only [if_true]
    cases hpa : driver_activate data.platformDriver t r with
    | none =>
      obtain ⟨tail, heq, hall⟩ :=
        commit_stage_events data t r (evs ++ [Event.driverActivate .platform t r true])
      refine ⟨[Event.driverActivate .platform t r true] ++ tail, by simp [heq], ?_⟩
      intro e he
      rcases List.mem_append.1 he with h | h
      · simp only [List.mem_singleton] at h; subst h; rfl
      · exact hall e h
    | some err =>
      refine ⟨[Event.driverActivate .platform t r false] ++
        (if data.cpuDriver.isSome then
          match driver_activate data.cpuDriver cur .internal with
          | some rerr =>
            [Event.driverActivate .cpu cur .internal false,
             Event.warning ("Failed to revert CPU driver " ++ driver_name data.cpuDriver
                            ++ ": " ++ rerr)]
          | none => [Event.driverActivate .cpu cur .internal true]
        else []), by simp, ?_⟩
      intro e he
      rcases List.mem_append.1 he with h | h
      · simp only [List.mem_singleton] at h; subst h; rfl
      · split at h
        · split at h
          · rcases List.mem_cons.1 h with rfl | h2
            · rfl
            · rcases List.mem_cons.1 h2 with rfl | h3
              · rfl
              · cases h3
          · rcases List.mem_cons.1 h with rfl | h2
            · rfl
            · cases h2
        · simp at h

lemma activate_events_shape (data : PpdApp) (t : Nat) (r : Reason) :
    ∃ tail, (activate_target_profile data t r).2.1 = Event.infoSetProfile t r :: tail ∧
      ∀ e ∈ tail, e.isPlainActivationStep = true := by
  unfold activate_target_profile
  cases hcs : driver_profile_support data.cpuDriver t with
  | false =>
    simp only [Bool.false_eq_true, if_false]
    obtain ⟨tail, heq, hall⟩ := platform_stage_events data t r data.activeProfile _
    exact ⟨tail, by simpa using heq, hall⟩
  | true =>
    simp only [if_true]
    cases hca : driver_activate data.cpuDriver t r with
    | none =>
      obtain ⟨tail, heq, hall⟩ := platform_stage_events data t r data.activeProfile
        ([Event.infoSetProfile t r] ++ [Event.driverActivate .cpu t r true])
      refine ⟨[Event.driverActivate .cpu t r true] ++ tail, by simpa using heq, ?_⟩
      intro e he
      rcases List.mem_append.1 he with h | h
      · simp only [List.mem_singleton] at h; subst h; rfl
      · exact hall e h
    | some err =>
      refine ⟨[Event.driverActivate .cpu t r false], by simp, ?_⟩
      intro e he
      simp only [List.mem_singleton] at he; subst he; rfl

lemma send_dbus_event_observers (mask : Nat) :
    ∀ e ∈ send_dbus_event mask, e.isPropertiesChanged = true ∧
      e.isProfileReleased = false ∧ e.isMethodReply = false ∧
      e.isInfoSetProfile = false := by
  intro e he
  unfold send_dbus_event at he
  split at he
  · simp at he
  · simp only [List.mem_cons, List.mem_singleton, List.not_mem_nil, or_false] at he
    rcases he with rfl | rfl <;> exact ⟨rfl, rfl, rfl, rfl⟩

lemma send_dbus_event_any_props (mask : Nat) (h : mask ≠ 0) :
    (send_dbus_event mask).any Event.isPropertiesChanged = true := by
  simp [send_dbus_event, h, Event.isPropertiesChanged]

lemma release_all_events_observers (data : PpdApp) :
    ∀ e ∈ (release_all_profile_holds data).2,
      e.isInfoSetProfile = false ∧ e.isPropertiesChanged = false ∧
      e.isMethodReply = false := by
  intro e he
  simp only [release_all_profile_holds, List.mem_flatMap] at he
  obtain ⟨kv, _, hkv⟩ := he
  simp only [List.mem_cons, List.mem_singleton, List.not_mem_nil, or_false] at hkv
  rcases hkv with rfl | rfl <;> exact ⟨rfl, rfl, rfl⟩

lemma dropWhile_append_of_all {p : Event → Bool} (A B : List Event)
    (hA : ∀ e ∈ A, p e = true) :
    (A ++ B).dropWhile p = B.dropWhile p := by
  induction A with
  | nil => rfl
  | cons a A ih =>
    rw [List.cons_append, List.dropWhile_cons_of_pos (hA a (by simp))]
    exact ih (fun e he => hA e (by simp [he]))

lemma count_release_events (holds : List (Nat × ProfileHold))
    (hnd : (holds.map Prod.fst).Nodup) (kv : Nat × ProfileHold) (hkv : kv ∈ holds) :
    (holds.flatMap (fun x => [release_hold_notify x.2 x.1, Event.busUnwatch x.1])).count
      (Event.profileReleased kv.2.requester kv.2.requester_iface kv.1) = 1 := by
  induction holds with
  | nil => cases hkv
  | cons x rest ih =>
    rw [List.map_cons, List.nodup_cons] at hnd
    rw [List.flatMap_cons, List.count_append]
    rcases List.mem_cons.1 hkv with rfl | hmem
    · have hzero :
          (rest.flatMap (fun x => [release_hold_notify x.2 x.1, Event.busUnwatch x.1])).count
            (Event.profileReleased kv.2.requester kv.2.requester_iface kv.1) = 0 := by
        rw [List.count_eq_zero]
        intro hin
        simp only [List.mem_flatMap, List.mem_cons, List.mem_singleton,
          List.not_mem_nil, or_false] at hin
        obtain ⟨y, hy, hcases⟩ := hin
        rcases hcases with heq | heq
        · have : y.1 = kv.1 := by
            simpa [release_hold_notify] using congrArg (fun e =>
              match e with
              | Event.profileReleased _ _ c => c
              | _ => 0) heq.symm
          exact hnd.1 (this ▸ List.mem_map_of_mem Prod.fst hy)
        · cases heq
      rw [hzero]
      simp [release_hold_notify, List.count_cons]
    · have hne : x.1 ≠ kv.1 := by
        intro h
        exact hnd.1 (h ▸ List.mem_map_of_mem Prod.fst hmem)
      have hhead :
          ([release_hold_notify x.2 x.1, Event.busUnwatch x.1] : List Event).count
            (Event.profileReleased kv.2.requester kv.2.requester_iface kv.1) = 0 := by
        rw [List.count_eq_zero]
        intro hin
        simp only [List.mem_cons, List.mem_singleton, List.not_mem_nil, or_false] at hin
        rcases hin with heq | heq
        · simp only [release_hold_notify, Event.profileReleased.injEq] at heq
          exact hne heq.2.2.symm
        · cases heq
      rw [hhead, ih hnd.2 hmem]

lemma count_zero_of_no_released (l : List Event) (a b : String) (c : Nat)
    (h : ∀ e ∈ l, e.isProfileReleased = false) :
    l.count (Event.profileReleased a b c) = 0 := by
  rw [List.count_eq_zero]
  intro hin
  have hf := h _ hin
  simp [Event.isProfileReleased] at hf

lemma each_hold_released_once_split (holds : List (Nat × ProfileHold))
    (hnd : (holds.map Prod.fst).Nodup) (B C : List Event)
    (hB : ∀ e ∈ B, e.isProfileReleased = false)
    (hC : ∀ e ∈ C, e.isProfileReleased = false) :
    each_hold_released_once holds
      (holds.flatMap (fun x => [release_hold_notify x.2 x.1, Event.busUnwatch x.1])
        ++ B ++ C) = true := by
  rw [each_hold_released_once, List.all_eq_true]
  intro kv hkv
  rw [List.count_append, List.count_append, count_release_events holds hnd kv hkv,
    count_zero_of_no_released B _ _ _ hB, count_zero_of_no_released C _ _ _ hC]
  rfl

lemma released_before_activation_split (A tail dbusEvs : List Event) (t : Nat) (r : Reason)
    (hA : ∀ e ∈ A, e.isInfoSetProfile = false)
    (htail : ∀ e ∈ tail, e.isProfileReleased = false)
    (hdbus : ∀ e ∈ dbusEvs, e.isProfileReleased = false) :
    released_before_activation (A ++ (Event.infoSetProfile t r :: tail) ++ dbusEvs) = true := by
  unfold released_before_activation
  rw [List.append_assoc, dropWhile_append_of_all A _ (fun e he => by simp [hA e he])]
  rw [List.cons_append, List.dropWhile_cons_of_neg (by simp [Event.isInfoSetProfile])]
  rw [List.all_eq_true]
  intro e he
  rcases List.mem_cons.1 he with rfl | h2
  · rfl
  · rcases List.mem_append.1 h2 with h3 | h3
    · simp [htail e h3]
    · simp [hdbus e h3]

/-! ## C2 -/

/-- Claim C2 counterexample: with a performance hold in effect
(`active_profile = performance`, `selected_profile = balanced`), a user set
of `ActiveProfile` to `performance` — a valid, available profile — returns
success immediately: the hold registry stays non-empty and
`selected_profile` is not updated, contradicting the claim.  A second
instance: when the CPU driver's activation fails, the user set to a valid,
available, different profile returns an error and `selected_profile` again
is not the requested profile. -/
theorem c2_counterexample :
    ((set_active_profile exAppHoldActive "performance").2.2 = none ∧
     (set_active_profile exAppHoldActive "performance").1.profileHolds ≠ [] ∧
     (set_active_profile exAppHoldActive "performance").1.selectedProfile ≠
       PPD_PROFILE_PERFORMANCE) ∧
    ((set_active_profile exAppCpuFail "performance").2.2 ≠ none ∧
     (set_active_profile exAppCpuFail "performance").1.selectedProfile ≠
       PPD_PROFILE_PERFORMANCE) := by
  refine ⟨⟨by decide, by decide, by decide⟩, by decide, by decide⟩

/-- Claim C2 (amended): for every user-initiated set of `ActiveProfile` to a
valid, available profile that differs from the current `active_profile` and
that returns success, afterwards `selected_profile = active_profile =`
the requested profile, the hold registry is empty, every prior hold-owner
received exactly one `ProfileReleased` signal for each of its cookies, and
all holds were released before the activation proceeded. -/
theorem c2_user_set_releases_holds (data : PpdApp) (p : String)
    (hnodup : (data.profileHolds.map Prod.fst).Nodup)
    (hvalid : ppd_profile_from_str p ≠ PPD_PROFILE_UNSET)
    (havail : get_profile_available data (ppd_profile_from_str p) = true)
    (hdiff : ppd_profile_from_str p ≠ data.activeProfile)
    (hok : (set_active_profile data p).2.2 = none) :
    (set_active_profile data p).1.activeProfile = ppd_profile_from_str p ∧
    (set_active_profile data p).1.selectedProfile = ppd_profile_from_str p ∧
    (set_active_profile data p).1.profileHolds = [] ∧
    each_hold_released_once data.profileHolds (set_active_profile data p).2.1 = true ∧
    released_before_activation (set_active_profile data p).2.1 = true := by
  unfold set_active_profile at hok ⊢
  rw [if_neg hvalid] at hok ⊢
  simp only [havail, Bool.not_true, Bool.false_eq_true, if_false] at hok ⊢
  rw [if_neg hdiff] at hok ⊢
  by_cases hlen : data.profileHolds.length = 0
  · have hnil : data.profileHolds = [] := List.length_eq_zero.1 hlen
    have hw : (data.profileHolds.length ≠ 0) = False := by simp [hlen]
    simp only [hw, if_false] at hok ⊢
    rcases hact : activate_target_profile data (ppd_profile_from_str p) .user
      with ⟨d2, e2, err⟩
    cases err with
    | some e =>
      rw [hact] at hok
      simp at hok
    | none =>
      have hsh := activate_state_shape data (ppd_profile_from_str p) .user
      rw [hact] at hsh
      obtain ⟨tail, he2, htail⟩ := activate_events_shape data (ppd_profile_from_str p) .user
      rw [hact] at he2
      simp only at he2
      refine ⟨hsh.1 rfl, rfl, ?_, ?_, ?_⟩
      · exact hsh.2.2.trans hnil
      · rw [each_hold_released_once, hnil]
        rfl
      · simp only [he2]
        have := released_before_activation_split [] tail
          (send_dbus_event PROP_ACTIVE_PROFILE) (ppd_profile_from_str p) .user
          (by intro e he; cases he)
          (fun e he => (plain_step_observers e (htail e he)).1)
          (fun e he => (send_dbus_event_observers _ e he).2.1)
        simpa using this
  · have hw : (data.profileHolds.length ≠ 0) = True := eq_true hlen
    simp only [hw, if_true] at hok ⊢
    rcases hact : activate_target_profile (release_all_profile_holds data).1
      (ppd_profile_from_str p) .user with ⟨d2, e2, err⟩
    cases err with
    | some e =>
      rw [hact] at hok
      simp at hok
    | none =>
      have hsh := activate_state_shape (release_all_profile_holds data).1
        (ppd_profile_from_str p) .user
      rw [hact] at hsh
      obtain ⟨tail, he2, htail⟩ := activate_events_shape (release_all_profile_holds data).1
        (ppd_profile_from_str p) .user
      rw [hact] at he2
      simp only at he2
      refine ⟨hsh.1 rfl, rfl, ?_, ?_, ?_⟩
      · exact hsh.2.2.trans rfl
      · rw [he2]
        exact each_hold_released_once_split data.profileHolds hnodup _ _
          (by
            intro e he
            rcases List.mem_cons.1 he with rfl | h2
            · rfl
            · exact (plain_step_observers e (htail e h2)).1)
          (fun e he => (send_dbus_event_observers _ e he).2.1)
      · rw [he2]
        exact released_before_activation_split (release_all_profile_holds data).2 tail
          (send_dbus_event (PROP_ACTIVE_PROFILE ||| PROP_ACTIVE_PROFILE_HOLDS))
          (ppd_profile_from_str p) .user
          (fun e he => (release_all_events_observers data e he).1)
          (fun e he => (plain_step_observers e (htail e he)).1)
          (fun e he => (send_dbus_event_observers _ e he).2.1)

/-- Witness for C2 (amended): a user set to `power-saver` while a
performance hold is active releases the hold with notification and commits
both profile variables. -/
theorem c2_witness :
    (set_active_profile exAppHoldActive "power-saver").1.activeProfile =
      ppd_profile_from_str "power-saver" ∧
    (set_active_profile exAppHoldActive "power-saver").1.selectedProfile =
      ppd_profile_from_str "power-saver" ∧
    (set_active_profile exAppHoldActive "power-saver").1.profileHolds = [] ∧
    each_hold_released_once exAppHoldActive.profileHolds
      (set_active_profile exAppHoldActive "power-saver").2.1 = true ∧
    released_before_activation (set_active_profile exAppHoldActive "power-saver").2.1 = true :=
  c2_user_set_releases_holds exAppHoldActive "power-saver"
    (by decide) (by decide) (by decide) (by decide) (by decide)

/-! ## C7 -/

lemma no_info_evs_dbus (hold : ProfileHold) (cookie : Nat) (mask : Nat) :
    (([Event.busUnwatch cookie, release_hold_notify hold cookie] : List Event)
      ++ send_dbus_event mask).all (fun e => !e.isInfoSetProfile) = true := by
  rw [List.all_eq_true]
  intro e he
  rcases List.mem_append.1 he with h | h
  · rcases List.mem_cons.1 h with rfl | h2
    · rfl
    · rcases List.mem_cons.1 h2 with rfl | h3
      · rfl
      · cases h3
  · simp [(send_dbus_event_observers mask e h).2.2.2]

/-- Claim C7: for every release of an existing hold — if the registry
becomes empty and the released hold's profile differed from
`selected_profile`, `selected_profile` is re-activated with reason
`program-hold`; else if the released hold's profile equalled
`active_profile`, the recomputed effective hold profile is activated only
when it is set and differs from `active_profile`; otherwise no activation
occurs. -/
theorem c7_release_recompute (data : PpdApp) (cookie : Nat) (hold : ProfileHold)
    (hlk : data.profileHolds.lookup cookie = some hold) :
    (((remaining_holds data cookie).length = 0 ∧ hold.profile ≠ data.selectedProfile) →
      Event.infoSetProfile data.selectedProfile .programHold ∈
        (release_profile_hold data cookie).2) ∧
    (¬((remaining_holds data cookie).length = 0 ∧ hold.profile ≠ data.selectedProfile) →
      hold.profile = data.activeProfile →
      next_hold_profile data cookie ≠ PPD_PROFILE_UNSET →
      next_hold_profile data cookie ≠ data.activeProfile →
      Event.infoSetProfile (next_hold_profile data cookie) .programHold ∈
        (release_profile_hold data cookie).2) ∧
    (¬((remaining_holds data cookie).length = 0 ∧ hold.profile ≠ data.selectedProfile) →
      (hold.profile = data.activeProfile →
        next_hold_profile data cookie = PPD_PROFILE_UNSET ∨
        next_hold_profile data cookie = data.activeProfile) →
      (release_profile_hold data cookie).2.all (fun e => !e.isInfoSetProfile) = true) := by
  unfold release_profile_hold
  rw [hlk]
  simp only [remaining_holds, next_hold_profile]
  refine ⟨?_, ?_, ?_⟩
  · intro h1
    rw [if_pos h1]
    obtain ⟨tail, he2, _⟩ := activate_events_shape
      { data with profileHolds := data.profileHolds.filter (fun kv => kv.1 != cookie) }
      data.selectedProfile .programHold
    simp only at he2 ⊢
    rw [he2]
    simp
  · intro h1 h2 h3 h4
    rw [if_neg h1, if_pos h2, if_pos ⟨h3, h4⟩]
    obtain ⟨tail, he2, _⟩ := activate_events_shape
      { data with profileHolds := data.profileHolds.filter (fun kv => kv.1 != cookie) }
      (effective_hold_profile
        { data with profileHolds := data.profileHolds.filter (fun kv => kv.1 != cookie) })
      .programHold
    simp only at he2 ⊢
    rw [he2]
    simp
  · intro h1 h2
    rw [if_neg h1]
    by_cases hact : hold.profile = data.activeProfile
    · rw [if_pos hact]
      have hnc : ¬(effective_hold_profile
          { data with profileHolds := data.profileHolds.filter (fun kv => kv.1 != cookie) } ≠
            PPD_PROFILE_UNSET ∧
          effective_hold_profile
          { data with profileHolds := data.profileHolds.filter (fun kv => kv.1 != cookie) } ≠
            data.activeProfile) := by
        rcases h2 hact with h | h
        · exact fun hc => hc.1 h
        · exact fun hc => hc.2 h
      rw [if_neg hnc]
      exact no_info_evs_dbus hold cookie PROP_ACTIVE_PROFILE_HOLDS
    · rw [if_neg hact]
      exact no_info_evs_dbus hold cookie PROP_ACTIVE_PROFILE_HOLDS

/-- Witness for C7: releasing the only hold (performance) while
`selected_profile` is balanced re-activates `selected_profile` with reason
`program-hold`. -/
theorem c7_witness :
    Event.infoSetProfile exAppHoldActive.selectedProfile .programHold ∈
      (release_profile_hold exAppHoldActive 17).2 :=
  (c7_release_recompute exAppHoldActive 17 holdPerfA (by decide)).1 (by decide)

/-! ## C8 -/

lemma release_profile_hold_any_props (data : PpdApp) (cookie : Nat) (hold : ProfileHold)
    (hlk : data.profileHolds.lookup cookie = some hold) :
    (release_profile_hold data cookie).2.any Event.isPropertiesChanged = true := by
  unfold release_profile_hold
  rw [hlk]
  simp only
  split
  · rw [List.any_append, send_dbus_event_any_props _ (by decide)]
    simp
  · split
    · split
      · rw [List.any_append, send_dbus_event_any_props _ (by decide)]
        simp
      · rw [List.any_append, send_dbus_event_any_props _ (by decide)]
        simp
    · rw [List.any_append, send_dbus_event_any_props _ (by decide)]
      simp

lemma set_active_profile_any_props (data : PpdApp) (p : String)
    (hvalid : ppd_profile_from_str p ≠ PPD_PROFILE_UNSET)
    (havail : get_profile_available data (ppd_profile_from_str p) = true)
    (hdiff : ppd_profile_from_str p ≠ data.activeProfile)
    (hok : (set_active_profile data p).2.2 = none) :
    (set_active_profile data p).2.1.any Event.isPropertiesChanged = true := by
  unfold set_active_profile at hok ⊢
  rw [if_neg hvalid] at hok ⊢
  simp only [havail, Bool.not_true, Bool.false_eq_true, if_false] at hok ⊢
  rw [if_neg hdiff] at hok ⊢
  by_cases hlen : data.profileHolds.length = 0
  · have hw : (data.profileHolds.length ≠ 0) = False := by simp [hlen]
    simp only [hw, if_false] at hok ⊢
    rcases hact : activate_target_profile data (ppd_profile_from_str p) .user
      with ⟨d2, e2, err⟩
    cases err with
    | some e =>
      rw [hact] at hok
      simp at hok
    | none =>
      simp only
      rw [List.any_append, send_dbus_event_any_props _ (by decide)]
      simp
  · have hw : (data.profileHolds.length ≠ 0) = True := eq_true hlen
    simp only [hw, if_true] at hok ⊢
    rcases hact : activate_target_profile (release_all_profile_holds data).1
      (ppd_profile_from_str p) .user with ⟨d2, e2, err⟩
    cases err with
    | some e =>
      rw [hact] at hok
      simp at hok
    | none =>
      simp only
      rw [List.any_append, send_dbus_event_any_props _ (by decide)]
      simp

/-- Claim C8 counterexample: a successful `HoldProfile` call replies to the
caller (with the cookie) before the `PropertiesChanged` notification is
emitted, so the method reply is not emitted after the change
notification. -/
theorem c8_counterexample :
    (hold_profile exAppOk "performance" "video" "vlc" ":1.17"
        POWER_PROFILES_IFACE_NAME 17).2.head? = some (.methodReply true) ∧
    (hold_profile exAppOk "performance" "video" "vlc" ":1.17"
        POWER_PROFILES_IFACE_NAME 17).2.any Event.isPropertiesChanged = true ∧
    no_notification_after_reply
      (hold_profile exAppOk "performance" "video" "vlc" ":1.17"
        POWER_PROFILES_IFACE_NAME 17).2 = false := by
  refine ⟨by decide, by decide, by decide⟩

/-- Claim C8 (amended): for successful `ReleaseProfile` calls and successful
profile-changing `ActiveProfile` sets, the method reply is the last
observable event and the change notification precedes it; a successful
`HoldProfile` call instead replies first (the reply is the head of the
trace) and emits its change notification afterwards. -/
theorem c8_reply_ordering (data : PpdApp) (cookie : Nat) (hold : ProfileHold)
    (p pname hreason appid sender iface : String) (watch_id : Nat) :
    (data.profileHolds.lookup cookie = some hold →
      (release_profile data cookie).2.getLast? = some (.methodReply true) ∧
      (release_profile data cookie).2.any Event.isPropertiesChanged = true) ∧
    (ppd_profile_from_str p ≠ PPD_PROFILE_UNSET →
      get_profile_available data (ppd_profile_from_str p) = true →
      ppd_profile_from_str p ≠ data.activeProfile →
      (set_active_profile data p).2.2 = none →
      (dbus_set_active_profile data p).2.getLast? = some (.methodReply true) ∧
      (dbus_set_active_profile data p).2.any Event.isPropertiesChanged = true) ∧
    ((ppd_profile_from_str pname = PPD_PROFILE_PERFORMANCE ∨
      ppd_profile_from_str pname = PPD_PROFILE_POWER_SAVER) →
      get_profile_available data (ppd_profile_from_str pname) = true →
      (hold_profile data pname hreason appid sender iface watch_id).2.head? =
        some (.methodReply true) ∧
      (hold_profile data pname hreason appid sender iface watch_id).2.any
        Event.isPropertiesChanged = true) := by
  refine ⟨?_, ?_, ?_⟩
  · intro hlk
    unfold release_profile
    rw [hlk]
    simp only [Option.isNone_some, Bool.false_eq_true, if_false]
    refine ⟨List.getLast?_concat _, ?_⟩
    rw [List.any_append, release_profile_hold_any_props data cookie hold hlk]
    rfl
  · intro hvalid havail hdiff hok
    unfold dbus_set_active_profile
    constructor
    · rw [List.getLast?_concat, hok]
      rfl
    · rw [List.any_append, set_active_profile_any_props data p hvalid havail hdiff hok]
      rfl
  · intro hh havail
    have hg : ¬(ppd_profile_from_str pname ≠ PPD_PROFILE_PERFORMANCE ∧
        ppd_profile_from_str pname ≠ PPD_PROFILE_POWER_SAVER) := by
      rcases hh with h | h
      · exact fun hc => hc.1 h
      · exact fun hc => hc.2 h
    unfold hold_profile
    rw [if_neg hg]
    simp only [havail, Bool.not_true, Bool.false_eq_true, if_false]
    constructor
    · split
      · split
        · rfl
        · rfl
      · rfl
    · split
      · split
        · rw [List.any_append, send_dbus_event_any_props _ (by decide)]
          simp
        · rw [List.any_append, send_dbus_event_any_props _ (by decide)]
          simp
      · rw [List.any_append, send_dbus_event_any_props _ (by decide)]
        simp

/-- Witness for C8 (amended) at concrete calls: a release reply follows its
notification; a property-set reply follows its notification; a hold reply
precedes its notification. -/
theorem c8_witness :
    ((release_profile exAppHoldActive 17).2.getLast? = some (.methodReply true) ∧
     (release_profile exAppHoldActive 17).2.any Event.isPropertiesChanged = true) ∧
    ((dbus_set_active_profile exAppOk "power-saver").2.getLast? =
        some (.methodReply true) ∧
     (dbus_set_active_profile exAppOk "power-saver").2.any Event.isPropertiesChanged = true) ∧
    ((hold_profile exAppOk "power-saver" "low" "shell" ":1.42"
        POWER_PROFILES_LEGACY_IFACE_NAME 18).2.head? = some (.methodReply true) ∧
     (hold_profile exAppOk "power-saver" "low" "shell" ":1.42"
        POWER_PROFILES_LEGACY_IFACE_NAME 18).2.any Event.isPropertiesChanged = true) :=
  ⟨(c8_reply_ordering exAppHoldActive 17 holdPerfA "" "" "" "" "" "" 0).1 (by decide),
   (c8_reply_ordering exAppOk 0 holdPerfA "power-saver" "" "" "" "" "" 0).2.1
     (by decide) (by decide) (by decide) (by decide),
   (c8_reply_ordering exAppOk 0 holdPerfA "" "power-saver" "low" "shell" ":1.42"
     POWER_PROFILES_LEGACY_IFACE_NAME 18).2.2 (by decide) (by decide)⟩
